import Mathlib

/-!
Shallow embedding of the `rnacanvas.draw.svg.highlight` sources.

Numbers (JS binary64 floats) are idealized as rationals; the one numeric
primitive that is not rational-valued, `x ** 0.5` in
`BoxHighlighting.cornerBoxD`, is threaded through as an explicit function
parameter `sq : ℚ → ℚ` standing for the host's square-root routine, so every
statement holds for the actual float square root in particular.

SVG path `d` attribute strings of the shape `M x y h w v h h b z` are
embedded structurally (record `TraceD` / `CornerD` holding the numbers that
are interpolated into the template literal); `TraceD.render` recovers the
literal string for integer-valued components, which is the only case the
spec's concrete examples exercise.

DOM node parenting is embedded as an `Option Nat` parent pointer per root
node (`Node.appendChild` moves a node to its new parent, per the DOM
standard; a node never has two parents), and attributes as fields.
-/

/-- Corresponds with the box interface returned by methods such as `getBBox`
(`src/src/BoxHighlighting.ts` interface `BoxLike`, `src/unnamed/part_000`
interface `Box`): minimum corner plus extents. -/
structure BoxLike where
  x : ℚ
  y : ℚ
  width : ℚ
  height : ℚ
deriving DecidableEq

/-- Modelled from the spec: `Box.matching` of the external `@rnacanvas/boxes`
package copies the `x`/`y`/`width`/`height` of a box-like value (the spec's
Box is "minimum corner plus non-negative extents; treated as immutable value
data"). -/
def Box.matching (b : BoxLike) : BoxLike := b

/-- Modelled from the spec: `minX` of the external Box class (the minimum X
coordinate, which for the spec's non-negative extents is `x`). -/
def BoxLike.minX (b : BoxLike) : ℚ := b.x

/-- Modelled from the spec: `minY` of the external Box class. -/
def BoxLike.minY (b : BoxLike) : ℚ := b.y

/-- Modelled from the spec: `maxX` of the external Box class
(`x + width` for non-negative extents). -/
def BoxLike.maxX (b : BoxLike) : ℚ := b.x + b.width

/-- Modelled from the spec: `maxY` of the external Box class. -/
def BoxLike.maxY (b : BoxLike) : ℚ := b.y + b.height

/-- The four corners of a box, in the order top-left, top-right,
bottom-right, bottom-left (matching the corner boxes of `BoxHighlighting`). -/
def BoxLike.corners (b : BoxLike) : List (ℚ × ℚ) :=
  [(b.minX, b.minY), (b.maxX, b.minY), (b.maxX, b.maxY), (b.minX, b.maxY)]

/-- Structural form of the path string
`M ${x} ${y} h ${w} v ${h} h ${b} z` built by `BoxTrace.trace`
(`src/unnamed/part_000` lines 89-94) and by `BoxHighlighting.highlight` for
its perimeter path (`src/src/BoxHighlighting.ts` line 128). -/
structure TraceD where
  mx : ℚ
  my : ℚ
  hSeg : ℚ
  vSeg : ℚ
  hBack : ℚ
deriving DecidableEq

/-- The perimeter-trace `d` value for a box:
`M ${box.x} ${box.y} h ${box.width} v ${box.height} h ${-box.width} z`. -/
def traceDOf (b : BoxLike) : TraceD :=
  ⟨b.x, b.y, b.width, b.height, -b.width⟩

/-- The vertices visited by a `TraceD` path: start point, after `h`, after
`v`, after the second `h` (the `z` then closes back to the start). -/
def TraceD.vertices (d : TraceD) : List (ℚ × ℚ) :=
  [(d.mx, d.my), (d.mx + d.hSeg, d.my), (d.mx + d.hSeg, d.my + d.vSeg),
   (d.mx + d.hSeg + d.hBack, d.my + d.vSeg)]

/-- JS number-to-string conversion, modelled for integer values only (the
only values the spec's concrete examples interpolate); non-integral numbers
are left out of the model. -/
def jsNumString (q : ℚ) : Option String :=
  if q.den = 1 then some (toString q.num) else none

/-- The literal `d` string of a `TraceD` with integer components, exactly as
the template literal in `trace`/`highlight` produces it. -/
def TraceD.render (d : TraceD) : Option String := do
  let sx ← jsNumString d.mx
  let sy ← jsNumString d.my
  let sw ← jsNumString d.hSeg
  let sv ← jsNumString d.vSeg
  let sb ← jsNumString d.hBack
  pure ("M " ++ sx ++ " " ++ sy ++ " h " ++ sw ++ " v " ++ sv ++ " h " ++ sb ++ " z")

/-- Structural form of the corner-box path string built by
`BoxHighlighting.cornerBoxD` (`src/src/BoxHighlighting.ts` lines 112-120):
`M ${mx} ${my} h ${seg} v ${seg} h ${-seg} z`. -/
structure CornerD where
  mx : ℚ
  my : ℚ
  seg : ℚ
deriving DecidableEq

/-- `BoxHighlighting.cornerBoxD`: given the host square-root routine `sq`
(modelling `** 0.5`), the current line thickness and a center point, the
corner-box `d` starts at
`(centerPoint.x - 2 * sqrt t, centerPoint.y - 2 * sqrt t)` and draws a
square of side `2 * sqrt t`. -/
def cornerBoxD (sq : ℚ → ℚ) (lineThickness : ℚ) (centerPoint : ℚ × ℚ) : CornerD :=
  ⟨centerPoint.1 - 2 * sq lineThickness, centerPoint.2 - 2 * sq lineThickness,
   2 * sq lineThickness⟩

/-- The geometric center of the square a `CornerD` draws: the square spans
`[mx, mx + seg] × [my, my + seg]`. -/
def CornerD.drawnCenter (d : CornerD) : ℚ × ℚ :=
  (d.mx + d.seg / 2, d.my + d.seg / 2)

/-- State of a `BoxHighlighting` instance (`src/src/BoxHighlighting.ts`):
the `d` and `stroke-width` attributes of its five stroke sub-elements (the
perimeter `boxTrace` path and the four corner-box paths), the private
`#lineThickness`, the remembered `highlightedBox`, the `opacity` attribute of
its root `<g>`, and the root's parent node. `mid` models object identity
(the markers of a controller pool are distinct DOM objects). Cosmetic
constant attributes (colors, `fill`, `pointer-events`) are omitted. -/
structure BoxHighlighting where
  mid : Nat
  traceD : Option TraceD
  dTL : Option CornerD
  dTR : Option CornerD
  dBR : Option CornerD
  dBL : Option CornerD
  swTrace : ℚ
  swTL : ℚ
  swTR : ℚ
  swBR : ℚ
  swBL : ℚ
  lineThickness : ℚ
  highlightedBox : Option BoxLike
  opacity : Option ℚ
  parent : Option Nat
deriving DecidableEq

/-- The `BoxHighlighting` constructor: no `d` attributes set yet, all five
stroke widths set to the default `#lineThickness = 0.5`, no highlighted box,
no `opacity` attribute, not attached anywhere. -/
def BoxHighlighting.new (mid : Nat) : BoxHighlighting :=
  { mid := mid, traceD := none, dTL := none, dTR := none, dBR := none, dBL := none,
    swTrace := 0.5, swTL := 0.5, swTR := 0.5, swBR := 0.5, swBL := 0.5,
    lineThickness := 0.5, highlightedBox := none, opacity := none, parent := none }

/-- `BoxHighlighting.appendTo(container)`: `container.appendChild(this.domNode)`
moves the root node under `container` (DOM `appendChild` reparents). -/
def BoxHighlighting.appendTo (container : Nat) (m : BoxHighlighting) : BoxHighlighting :=
  { m with parent := some container }

/-- `BoxHighlighting.remove()`: `this.domNode.remove()` detaches the root
node from its parent, if any. -/
def BoxHighlighting.remove (m : BoxHighlighting) : BoxHighlighting :=
  { m with parent := none }

/-- `BoxHighlighting.highlight(boxLike)` (lines 125-136): sets the perimeter
path `d` and the four corner-box `d`s (computed at the current line
thickness, centered arguments being the four corners of the box), and
remembers the highlighted box. -/
def BoxHighlighting.highlight (sq : ℚ → ℚ) (boxLike : BoxLike) (m : BoxHighlighting) :
    BoxHighlighting :=
  let box := Box.matching boxLike
  { m with
    traceD := some (traceDOf box),
    dTL := some (cornerBoxD sq m.lineThickness (box.minX, box.minY)),
    dTR := some (cornerBoxD sq m.lineThickness (box.maxX, box.minY)),
    dBR := some (cornerBoxD sq m.lineThickness (box.maxX, box.maxY)),
    dBL := some (cornerBoxD sq m.lineThickness (box.minX, box.maxY)),
    highlightedBox := some box }

/-- The `lineThickness` setter (lines 143-155): stores the new thickness,
sets `stroke-width` on the perimeter path and all four corner boxes, then
re-highlights the remembered box (if any) so corner geometry tracks the new
thickness. -/
def BoxHighlighting.setLineThickness (sq : ℚ → ℚ) (t : ℚ) (m : BoxHighlighting) :
    BoxHighlighting :=
  let m1 := { m with lineThickness := t,
                     swTrace := t, swTL := t, swTR := t, swBR := t, swBL := t }
  match m1.highlightedBox with
  | some box => BoxHighlighting.highlight sq box m1
  | none => m1

/-- `BoxHighlighting.setOpacity(opacity)`: sets the `opacity` attribute on
the root `<g>`. -/
def BoxHighlighting.setOpacity (o : ℚ) (m : BoxHighlighting) : BoxHighlighting :=
  { m with opacity := some o }

/-- State of a `BoxTrace` instance (`src/unnamed/part_000`): the `d` and
`stroke-width` attributes of its two stroke sub-elements (the light and dark
dashings), the root `<g>`'s `opacity` attribute and parent. Cosmetic
constant attributes (colors, dash arrays, linecaps) are omitted. -/
structure BoxTrace where
  mid : Nat
  lightD : Option TraceD
  darkD : Option TraceD
  swLight : ℚ
  swDark : ℚ
  opacity : Option ℚ
  parent : Option Nat
deriving DecidableEq

/-- The `BoxTrace` constructor: no `d` attributes, both stroke widths set to
the default `0.4`, no `opacity` attribute, not attached. -/
def BoxTrace.new (mid : Nat) : BoxTrace :=
  { mid := mid, lightD := none, darkD := none,
    swLight := 0.4, swDark := 0.4, opacity := none, parent := none }

/-- `BoxTrace.appendTo(container)`. -/
def BoxTrace.appendTo (container : Nat) (m : BoxTrace) : BoxTrace :=
  { m with parent := some container }

/-- `BoxTrace.remove()`. -/
def BoxTrace.remove (m : BoxTrace) : BoxTrace :=
  { m with parent := none }

/-- `BoxTrace.trace(box)` (lines 89-94): sets the same perimeter `d` on both
stroke sub-elements. -/
def BoxTrace.trace (b : BoxLike) (m : BoxTrace) : BoxTrace :=
  { m with lightD := some (traceDOf b), darkD := some (traceDOf b) }

/-- `BoxTrace.setThickness(thickness)` (lines 99-102): sets `stroke-width`
on both stroke sub-elements. -/
def BoxTrace.setThickness (t : ℚ) (m : BoxTrace) : BoxTrace :=
  { m with swLight := t, swDark := t }

/-- `BoxTrace.setOpacity(opacity)`. -/
def BoxTrace.setOpacity (o : ℚ) (m : BoxTrace) : BoxTrace :=
  { m with opacity := some o }

/-- The options object passed to `MutationObserver.observe` in both
controllers' constructors:
`{ attributes: true, childList: true, characterData: true, subtree: true }`. -/
structure ObserveConfig where
  attributes : Bool
  childList : Bool
  characterData : Bool
  subtree : Bool
deriving DecidableEq

/-- The subscriptions a controller constructor registers: the listener added
via `targetSVGElements.addEventListener` and the mutation observation of the
parent SVG document (with its options, `none` while nothing is observed). -/
structure Subscriptions where
  changeListener : Bool
  observed : Option ObserveConfig
deriving DecidableEq

/-- State of a `LiveSVGElementHighlightings` instance
(`src/src/LiveSVGElementHighlightings.ts`): the `boxHighlightings` pool, a
fresh-object counter modelling allocation of new `BoxHighlighting`
instances, the identity of the controller's own root `<g>` (`domNode`), the
root's parent node, and the registered subscriptions. -/
structure LiveSVGElementHighlightings where
  pool : List BoxHighlighting
  nextId : Nat
  rootId : Nat
  parent : Option Nat
  subs : Subscriptions
deriving DecidableEq

/-- The `LiveSVGElementHighlightings` constructor (lines 45-54): starts with
an empty pool, registers the change listener on the target set and a
mutation observer over the whole parent SVG document subtree, and performs
no refresh. -/
def LiveSVGElementHighlightings.construct (rootId : Nat) : LiveSVGElementHighlightings :=
  { pool := [], nextId := 0, rootId := rootId, parent := none,
    subs := { changeListener := true,
              observed := some { attributes := true, childList := true,
                                 characterData := true, subtree := true } } }

/-- `LiveSVGElementHighlightings.appendTo(container)`. -/
def LiveSVGElementHighlightings.appendTo (container : Nat) (s : LiveSVGElementHighlightings) :
    LiveSVGElementHighlightings :=
  { s with parent := some container }

/-- `LiveSVGElementHighlightings.remove()`. -/
def LiveSVGElementHighlightings.remove (s : LiveSVGElementHighlightings) :
    LiveSVGElementHighlightings :=
  { s with parent := none }

/-- The body of the per-target loop of `refresh` (lines 90-99): when the
target's `getBBox()` succeeds with box `b` (`some b`), the marker is
highlighted, its line thickness set to the refresh's computed thickness, and
its opacity set to 1; when `getBBox()` throws (`none`), the `catch` branch
leaves the marker untouched (the error is only logged). -/
def refreshMarker (sq : ℚ → ℚ) (lineThickness : ℚ) (tgt : Option BoxLike)
    (m : BoxHighlighting) : BoxHighlighting :=
  match tgt with
  | some b =>
      BoxHighlighting.setOpacity 1
        (BoxHighlighting.setLineThickness sq lineThickness
          (BoxHighlighting.highlight sq b m))
  | none => m

/-- The combined effect of the two passes of `refresh` over the (grown)
pool: markers at an index with a target go through the per-target loop body;
markers past the target count are the `slice(targetSVGElements.length)` and
get opacity 0. Called only with a pool at least as long as the target list
(the pool is grown first). -/
def processPool (sq : ℚ → ℚ) (lineThickness : ℚ) :
    List (Option BoxLike) → List BoxHighlighting → List BoxHighlighting
  | _, [] => []
  | [], m :: ms => BoxHighlighting.setOpacity 0 m :: processPool sq lineThickness [] ms
  | t :: ts, m :: ms => refreshMarker sq lineThickness t m :: processPool sq lineThickness ts ms

/-- The markers created by the pool-growing pass of `refresh` (lines 77-81):
one fresh `BoxHighlighting` per missing slot, each appended to the
controller's root `<g>` immediately upon creation. -/
def newMarkers (rootId : Nat) (nextId : Nat) (count : Nat) : List BoxHighlighting :=
  (List.range count).map (fun j => BoxHighlighting.appendTo rootId (BoxHighlighting.new (nextId + j)))

/-- `LiveSVGElementHighlightings.refresh()` (lines 74-105). Inputs of one
run: the host square-root routine `sq`, the coordinate system's current
`horizontalScaling` (read fresh during the refresh), and the materialized
target list where each entry is `some` of the target's bounding box when
`getBBox()` succeeds and `none` when it throws. The pool is grown to the
target count, the line thickness `0.75 / scaling` is computed once, every
target index is processed (failures caught per index), and leftover markers
are hidden. The function is total: a failed box query never escapes to the
caller. -/
def LiveSVGElementHighlightings.refresh (sq : ℚ → ℚ) (scaling : ℚ)
    (targets : List (Option BoxLike)) (s : LiveSVGElementHighlightings) :
    LiveSVGElementHighlightings :=
  let grown := s.pool ++ newMarkers s.rootId s.nextId (targets.length - s.pool.length)
  let lineThickness := 0.75 / scaling
  { s with pool := processPool sq lineThickness targets grown,
           nextId := s.nextId + (targets.length - s.pool.length) }

/-- How many times the `catch` branch of `refresh` runs `console.error`
during one refresh: once per target whose box query threw. -/
def refreshErrors (targets : List (Option BoxLike)) : Nat :=
  (targets.map (fun t => match t with | none => 1 | some _ => 0)).sum

/-- One notification delivered to a controller (a change event on the live
set or a mutation-observer callback): the refresh it triggers observes the
then-current horizontal scaling and target boxes. -/
structure RefreshEvent where
  scaling : ℚ
  targets : List (Option BoxLike)

/-- A controller's evolution under a sequence of notifications: each
notification synchronously runs `refresh` (nothing else ever mutates the
pool). -/
def runEvents (sq : ℚ → ℚ) (c : LiveSVGElementHighlightings)
    (evs : List RefreshEvent) : LiveSVGElementHighlightings :=
  evs.foldl (fun s e => LiveSVGElementHighlightings.refresh sq e.scaling e.targets s) c

/-- State of the `LiveSVGElementHighlightings` class of
`src/unnamed/part_002` (the `BoxTrace`-based controller; renamed here to
avoid clashing with the `src/src` class of the same name): the `boxTraces`
pool, fresh-object counter, root `<g>` identity, parent and subscriptions. -/
structure LiveBoxTraceHighlightings where
  pool : List BoxTrace
  nextId : Nat
  rootId : Nat
  parent : Option Nat
  subs : Subscriptions
deriving DecidableEq

/-- The `part_002` constructor (lines 41-48): empty pool, both
subscriptions registered, no refresh performed. -/
def LiveBoxTraceHighlightings.construct (rootId : Nat) : LiveBoxTraceHighlightings :=
  { pool := [], nextId := 0, rootId := rootId, parent := none,
    subs := { changeListener := true,
              observed := some { attributes := true, childList := true,
                                 characterData := true, subtree := true } } }

/-- `appendTo(container)` of the `part_002` controller. -/
def LiveBoxTraceHighlightings.appendTo (container : Nat) (s : LiveBoxTraceHighlightings) :
    LiveBoxTraceHighlightings :=
  { s with parent := some container }

/-- `remove()` of the `part_002` controller. -/
def LiveBoxTraceHighlightings.remove (s : LiveBoxTraceHighlightings) :
    LiveBoxTraceHighlightings :=
  { s with parent := none }

/-- The per-target loop body of the `part_002` refresh (lines 80-88): trace
the box and show the marker on success; leave the marker untouched (error
logged only) on failure. No thickness adjustment in this variant. -/
def refreshMarkerT (tgt : Option BoxLike) (m : BoxTrace) : BoxTrace :=
  match tgt with
  | some b => BoxTrace.setOpacity 1 (BoxTrace.trace b m)
  | none => m

/-- Combined per-index effect of the `part_002` refresh over the grown
pool. -/
def processPoolT : List (Option BoxLike) → List BoxTrace → List BoxTrace
  | _, [] => []
  | [], m :: ms => BoxTrace.setOpacity 0 m :: processPoolT [] ms
  | t :: ts, m :: ms => refreshMarkerT t m :: processPoolT ts ms

/-- The `BoxTrace`s created by the pool-growing pass of the `part_002`
refresh (lines 71-75). -/
def newMarkersT (rootId : Nat) (nextId : Nat) (count : Nat) : List BoxTrace :=
  (List.range count).map (fun j => BoxTrace.appendTo rootId (BoxTrace.new (nextId + j)))

/-- `refresh()` of the `part_002` controller (lines 68-92): grow the pool,
process every target index (failures caught per index), hide leftovers. -/
def LiveBoxTraceHighlightings.refresh (targets : List (Option BoxLike))
    (s : LiveBoxTraceHighlightings) : LiveBoxTraceHighlightings :=
  let grown := s.pool ++ newMarkersT s.rootId s.nextId (targets.length - s.pool.length)
  { s with pool := processPoolT targets grown,
           nextId := s.nextId + (targets.length - s.pool.length) }

/-- The number of child nodes a controller's root group contributes to
container `c`: one while attached to `c`, none otherwise (the root group is
a single node). -/
def addedChildren (parent : Option Nat) (c : Nat) : Nat :=
  if parent = some c then 1 else 0

theorem refreshMarker_some (sq : ℚ → ℚ) (lt : ℚ) (b : BoxLike) (m : BoxHighlighting) :
    refreshMarker sq lt (some b) m =
      { mid := m.mid, traceD := some (traceDOf b),
        dTL := some (cornerBoxD sq lt (b.minX, b.minY)),
        dTR := some (cornerBoxD sq lt (b.maxX, b.minY)),
        dBR := some (cornerBoxD sq lt (b.maxX, b.maxY)),
        dBL := some (cornerBoxD sq lt (b.minX, b.maxY)),
        swTrace := lt, swTL := lt, swTR := lt, swBR := lt, swBL := lt,
        lineThickness := lt, highlightedBox := some b, opacity := some 1,
        parent := m.parent } := rfl

theorem length_processPool (sq : ℚ → ℚ) (lt : ℚ) (ts : List (Option BoxLike))
    (ms : List BoxHighlighting) : (processPool sq lt ts ms).length = ms.length := by
  induction ms generalizing ts with
  | nil => cases ts <;> rfl
  | cons m ms ih => cases ts <;> simp [processPool, ih]

theorem getElem?_processPool (sq : ℚ → ℚ) (lt : ℚ) (ts : List (Option BoxLike))
    (ms : List BoxHighlighting) (i : Nat) :
    (processPool sq lt ts ms)[i]? =
      (ms[i]?).map (fun m =>
        match ts[i]? with
        | some t => refreshMarker sq lt t m
        | none => BoxHighlighting.setOpacity 0 m) := by
  induction ms generalizing ts i with
  | nil => cases ts <;> simp [processPool]
  | cons m ms ih =>
    cases ts with
    | nil => cases i <;> simp [processPool, ih]
    | cons t ts => cases i <;> simp [processPool, ih]

theorem map_mid_processPool (sq : ℚ → ℚ) (lt : ℚ) (ts : List (Option BoxLike))
    (ms : List BoxHighlighting) :
    (processPool sq lt ts ms).map BoxHighlighting.mid = ms.map BoxHighlighting.mid := by
  induction ms generalizing ts with
  | nil => cases ts <;> rfl
  | cons m ms ih =>
    cases ts with
    | nil => simpa [processPool, BoxHighlighting.setOpacity] using ih []
    | cons t ts =>
      have hm : (refreshMarker sq lt t m).mid = m.mid := by
        cases t with
        | none => rfl
        | some b => rw [refreshMarker_some]
      simp [processPool, ih, hm]

theorem map_parent_processPool (sq : ℚ → ℚ) (lt : ℚ) (ts : List (Option BoxLike))
    (ms : List BoxHighlighting) :
    (processPool sq lt ts ms).map BoxHighlighting.parent = ms.map BoxHighlighting.parent := by
  induction ms generalizing ts with
  | nil => cases ts <;> rfl
  | cons m ms ih =>
    cases ts with
    | nil => simpa [processPool, BoxHighlighting.setOpacity] using ih []
    | cons t ts =>
      have hm : (refreshMarker sq lt t m).parent = m.parent := by
        cases t with
        | none => rfl
        | some b => rw [refreshMarker_some]
      simp [processPool, ih, hm]

theorem map_opacity_processPool (sq : ℚ → ℚ) (lt : ℚ) (ts : List (Option BoxLike))
    (ms : List BoxHighlighting) (hlen : ts.length ≤ ms.length)
    (hall : ∀ t ∈ ts, t.isSome) :
    (processPool sq lt ts ms).map BoxHighlighting.opacity =
      List.replicate ts.length (some 1) ++ List.replicate (ms.length - ts.length) (some 0) := by
  induction ms generalizing ts with
  | nil =>
    have : ts = [] := List.eq_nil_of_length_eq_zero (Nat.le_zero.mp (by simpa using hlen))
    subst this; rfl
  | cons m ms ih =>
    cases ts with
    | nil =>
      simp [processPool, BoxHighlighting.setOpacity, List.replicate_succ,
        ih [] (by simp) (by simp)]
    | cons t ts =>
      obtain ⟨b, rfl⟩ := Option.isSome_iff_exists.mp (hall t (by simp))
      simp only [processPool, List.map_cons, List.length_cons, List.replicate_succ,
        Nat.succ_sub_succ, List.cons_append, List.cons.injEq]
      refine ⟨by rw [refreshMarker_some], ?_⟩
      exact ih ts (by simpa using hlen) (fun x hx => hall x (by simp [hx]))

theorem length_newMarkers (r n k : Nat) : (newMarkers r n k).length = k := by
  simp [newMarkers]

theorem getElem?_newMarkers (r n k j : Nat) :
    (newMarkers r n k)[j]? =
      if j < k then some (BoxHighlighting.appendTo r (BoxHighlighting.new (n + j))) else none := by
  by_cases h : j < k
  · simp [newMarkers, List.getElem?_map, List.getElem?_range h, h]
  · rw [List.getElem?_eq_none (by simpa [length_newMarkers] using Nat.le_of_not_lt h)]
    simp [h]

theorem map_mid_newMarkers (r n k : Nat) :
    (newMarkers r n k).map BoxHighlighting.mid = (List.range k).map (fun j => n + j) := by
  simp [newMarkers, BoxHighlighting.appendTo, BoxHighlighting.new]

theorem map_parent_newMarkers (r n k : Nat) :
    (newMarkers r n k).map BoxHighlighting.parent = List.replicate k (some r) := by
  induction k with
  | zero => rfl
  | succ k ih =>
    simp only [newMarkers, List.range_succ, List.map_append] at ih ⊢
    rw [ih, List.replicate_succ']
    rfl

theorem refreshMarkerT_some (b : BoxLike) (m : BoxTrace) :
    refreshMarkerT (some b) m =
      { mid := m.mid, lightD := some (traceDOf b), darkD := some (traceDOf b),
        swLight := m.swLight, swDark := m.swDark, opacity := some 1,
        parent := m.parent } := rfl

theorem length_processPoolT (ts : List (Option BoxLike)) (ms : List BoxTrace) :
    (processPoolT ts ms).length = ms.length := by
  induction ms generalizing ts with
  | nil => cases ts <;> rfl
  | cons m ms ih => cases ts <;> simp [processPoolT, ih]

theorem getElem?_processPoolT (ts : List (Option BoxLike)) (ms : List BoxTrace) (i : Nat) :
    (processPoolT ts ms)[i]? =
      (ms[i]?).map (fun m =>
        match ts[i]? with
        | some t => refreshMarkerT t m
        | none => BoxTrace.setOpacity 0 m) := by
  induction ms generalizing ts i with
  | nil => cases ts <;> simp [processPoolT]
  | cons m ms ih =>
    cases ts with
    | nil => cases i <;> simp [processPoolT, ih]
    | cons t ts => cases i <;> simp [processPoolT, ih]

theorem map_mid_processPoolT (ts : List (Option BoxLike)) (ms : List BoxTrace) :
    (processPoolT ts ms).map BoxTrace.mid = ms.map BoxTrace.mid := by
  induction ms generalizing ts with
  | nil => cases ts <;> rfl
  | cons m ms ih =>
    cases ts with
    | nil => simpa [processPoolT, BoxTrace.setOpacity] using ih []
    | cons t ts =>
      have hm : (refreshMarkerT t m).mid = m.mid := by
        cases t with
        | none => rfl
        | some b => rw [refreshMarkerT_some]
      simp [processPoolT, ih, hm]

theorem map_parent_processPoolT (ts : List (Option BoxLike)) (ms : List BoxTrace) :
    (processPoolT ts ms).map BoxTrace.parent = ms.map BoxTrace.parent := by
  induction ms generalizing ts with
  | nil => cases ts <;> rfl
  | cons m ms ih =>
    cases ts with
    | nil => simpa [processPoolT, BoxTrace.setOpacity] using ih []
    | cons t ts =>
      have hm : (refreshMarkerT t m).parent = m.parent := by
        cases t with
        | none => rfl
        | some b => rw [refreshMarkerT_some]
      simp [processPoolT, ih, hm]

theorem map_opacity_processPoolT (ts : List (Option BoxLike)) (ms : List BoxTrace)
    (hlen : ts.length ≤ ms.length) (hall : ∀ t ∈ ts, t.isSome) :
    (processPoolT ts ms).map BoxTrace.opacity =
      List.replicate ts.length (some 1) ++ List.replicate (ms.length - ts.length) (some 0) := by
  induction ms generalizing ts with
  | nil =>
    have : ts = [] := List.eq_nil_of_length_eq_zero (Nat.le_zero.mp (by simpa using hlen))
    subst this; rfl
  | cons m ms ih =>
    cases ts with
    | nil =>
      simp [processPoolT, BoxTrace.setOpacity, List.replicate_succ,
        ih [] (by simp) (by simp)]
    | cons t ts =>
      obtain ⟨b, rfl⟩ := Option.isSome_iff_exists.mp (hall t (by simp))
      simp only [processPoolT, List.map_cons, List.length_cons, List.replicate_succ,
        Nat.succ_sub_succ, List.cons_append, List.cons.injEq]
      refine ⟨by rw [refreshMarkerT_some], ?_⟩
      exact ih ts (by simpa using hlen) (fun x hx => hall x (by simp [hx]))

theorem length_newMarkersT (r n k : Nat) : (newMarkersT r n k).length = k := by
  simp [newMarkersT]

theorem getElem?_newMarkersT (r n k j : Nat) :
    (newMarkersT r n k)[j]? =
      if j < k then some (BoxTrace.appendTo r (BoxTrace.new (n + j))) else none := by
  by_cases h : j < k
  · simp [newMarkersT, List.getElem?_map, List.getElem?_range h, h]
  · rw [List.getElem?_eq_none (by simpa [length_newMarkersT] using Nat.le_of_not_lt h)]
    simp [h]

theorem map_mid_newMarkersT (r n k : Nat) :
    (newMarkersT r n k).map BoxTrace.mid = (List.range k).map (fun j => n + j) := by
  simp [newMarkersT, BoxTrace.appendTo, BoxTrace.new]

theorem map_parent_newMarkersT (r n k : Nat) :
    (newMarkersT r n k).map BoxTrace.parent = List.replicate k (some r) := by
  induction k with
  | zero => rfl
  | succ k ih =>
    simp only [newMarkersT, List.range_succ, List.map_append] at ih ⊢
    rw [ih, List.replicate_succ']
    rfl

theorem refresh_pool_def (sq : ℚ → ℚ) (scaling : ℚ) (targets : List (Option BoxLike))
    (s : LiveSVGElementHighlightings) :
    (s.refresh sq scaling targets).pool =
      processPool sq (0.75 / scaling) targets
        (s.pool ++ newMarkers s.rootId s.nextId (targets.length - s.pool.length)) := rfl

theorem length_refresh_pool (sq : ℚ → ℚ) (scaling : ℚ) (targets : List (Option BoxLike))
    (s : LiveSVGElementHighlightings) :
    (s.refresh sq scaling targets).pool.length = max s.pool.length targets.length := by
  rw [refresh_pool_def, length_processPool, List.length_append, length_newMarkers]
  omega

theorem refreshT_pool_def (targets : List (Option BoxLike)) (s : LiveBoxTraceHighlightings) :
    (s.refresh targets).pool =
      processPoolT targets
        (s.pool ++ newMarkersT s.rootId s.nextId (targets.length - s.pool.length)) := rfl

theorem length_refreshT_pool (targets : List (Option BoxLike)) (s : LiveBoxTraceHighlightings) :
    (s.refresh targets).pool.length = max s.pool.length targets.length := by
  rw [refreshT_pool_def, length_processPoolT, List.length_append, length_newMarkersT]
  omega

theorem refreshErrors_of_allSome (l : List (Option BoxLike)) (h : ∀ x ∈ l, x.isSome) :
    refreshErrors l = 0 := by
  induction l with
  | nil => rfl
  | cons x l ih =>
    obtain ⟨b, rfl⟩ := Option.isSome_iff_exists.mp (h x (by simp))
    simpa [refreshErrors] using ih (fun y hy => h y (by simp [hy]))

theorem refreshErrors_append (a b : List (Option BoxLike)) :
    refreshErrors (a ++ b) = refreshErrors a + refreshErrors b := by
  simp [refreshErrors]

theorem length_runEvents_mono (sq : ℚ → ℚ) (c : LiveSVGElementHighlightings)
    (evs : List RefreshEvent) :
    c.pool.length ≤ (runEvents sq c evs).pool.length := by
  induction evs generalizing c with
  | nil => exact Nat.le_refl _
  | cons e evs ih =>
    calc c.pool.length
        ≤ (c.refresh sq e.scaling e.targets).pool.length := by
          rw [length_refresh_pool]; exact Nat.le_max_left _ _
      _ ≤ (runEvents sq (c.refresh sq e.scaling e.targets) evs).pool.length := ih _
      _ = (runEvents sq c (e :: evs)).pool.length := rfl

theorem grown_getElem?_isSome (s : LiveSVGElementHighlightings)
    (targets : List (Option BoxLike)) (i : Nat) (hi : i < targets.length) :
    ∃ g, (s.pool ++ newMarkers s.rootId s.nextId (targets.length - s.pool.length))[i]? = some g := by
  have hlen : i < (s.pool ++ newMarkers s.rootId s.nextId (targets.length - s.pool.length)).length := by
    rw [List.length_append, length_newMarkers]; omega
  exact ⟨_, List.getElem?_eq_some_iff.mpr ⟨hlen, rfl⟩⟩

theorem refresh_success_getElem (sq : ℚ → ℚ) (scaling : ℚ)
    (targets : List (Option BoxLike)) (s : LiveSVGElementHighlightings) (i : Nat) (b : BoxLike)
    (hb : targets[i]? = some (some b)) :
    ∃ g, (s.pool ++ newMarkers s.rootId s.nextId (targets.length - s.pool.length))[i]? = some g ∧
      (s.refresh sq scaling targets).pool[i]? =
        some (refreshMarker sq (0.75 / scaling) (some b) g) := by
  obtain ⟨hi, -⟩ := List.getElem?_eq_some_iff.mp hb
  obtain ⟨g, hg⟩ := grown_getElem?_isSome s targets i hi
  refine ⟨g, hg, ?_⟩
  rw [refresh_pool_def, getElem?_processPool, hg, hb]
  rfl

theorem refresh_failure_getElem (sq : ℚ → ℚ) (scaling : ℚ)
    (targets : List (Option BoxLike)) (s : LiveSVGElementHighlightings) (i : Nat)
    (hb : targets[i]? = some none) :
    (s.refresh sq scaling targets).pool[i]? =
      (s.pool ++ newMarkers s.rootId s.nextId (targets.length - s.pool.length))[i]? := by
  obtain ⟨hi, -⟩ := List.getElem?_eq_some_iff.mp hb
  obtain ⟨g, hg⟩ := grown_getElem?_isSome s targets i hi
  rw [refresh_pool_def, getElem?_processPool, hg, hb]
  rfl

theorem grownT_getElem?_isSome (s : LiveBoxTraceHighlightings)
    (targets : List (Option BoxLike)) (i : Nat) (hi : i < targets.length) :
    ∃ g, (s.pool ++ newMarkersT s.rootId s.nextId (targets.length - s.pool.length))[i]? = some g := by
  have hlen : i < (s.pool ++ newMarkersT s.rootId s.nextId (targets.length - s.pool.length)).length := by
    rw [List.length_append, length_newMarkersT]; omega
  exact ⟨_, List.getElem?_eq_some_iff.mpr ⟨hlen, rfl⟩⟩

theorem refreshT_success_getElem (targets : List (Option BoxLike))
    (s : LiveBoxTraceHighlightings) (i : Nat) (b : BoxLike)
    (hb : targets[i]? = some (some b)) :
    ∃ g, (s.pool ++ newMarkersT s.rootId s.nextId (targets.length - s.pool.length))[i]? = some g ∧
      (s.refresh targets).pool[i]? = some (refreshMarkerT (some b) g) := by
  obtain ⟨hi, -⟩ := List.getElem?_eq_some_iff.mp hb
  obtain ⟨g, hg⟩ := grownT_getElem?_isSome s targets i hi
  refine ⟨g, hg, ?_⟩
  rw [refreshT_pool_def, getElem?_processPoolT, hg, hb]
  rfl

theorem refreshT_failure_getElem (targets : List (Option BoxLike))
    (s : LiveBoxTraceHighlightings) (i : Nat) (hb : targets[i]? = some none) :
    (s.refresh targets).pool[i]? =
      (s.pool ++ newMarkersT s.rootId s.nextId (targets.length - s.pool.length))[i]? := by
  obtain ⟨hi, -⟩ := List.getElem?_eq_some_iff.mp hb
  obtain ⟨g, hg⟩ := grownT_getElem?_isSome s targets i hi
  rw [refreshT_pool_def, getElem?_processPoolT, hg, hb]
  rfl

/-- C4: the claim (and the doc comment on `cornerBoxD` itself) says the four
small squares are centered on the box's corners. The code is not: the square
for a corner starts a full side-length `2 * sqrt t` before the corner, so
the corner sits at the square's far corner and the drawn square's center is
offset from the corner by `(-sqrt t, -sqrt t)` — nonzero for every positive
thickness. Concretely, at thickness 1 (where the float square root is
exactly 1) the top-left handle for box `{x:0, y:0, width:10, height:10}` is
the square `[-2, 0] × [-2, 0]` with center `(-1, -1)`, not the corner
`(0, 0)`. Square size `2 * sqrt t` is a function of the thickness, as
claimed. -/
theorem cornerBoxD_corner_not_center (sq : ℚ → ℚ) (t : ℚ) (c : ℚ × ℚ)
    (m : BoxHighlighting) (b : BoxLike) (hs : sq m.lineThickness ≠ 0) :
    (cornerBoxD sq t c).drawnCenter = (c.1 - sq t, c.2 - sq t) ∧
    (cornerBoxD sq t c).seg = 2 * sq t ∧
    ((BoxHighlighting.highlight sq b m).dTL.map CornerD.drawnCenter ≠
      some (b.minX, b.minY)) ∧
    (BoxHighlighting.highlight (fun _ => 1) ⟨0, 0, 10, 10⟩
        (BoxHighlighting.setLineThickness (fun _ => 1) 1 (BoxHighlighting.new 0))).dTL =
      some { mx := -2, my := -2, seg := 2 } ∧
    CornerD.drawnCenter { mx := -2, my := -2, seg := 2 } = (-1, -1) ∧
    ((-1, -1) : ℚ × ℚ) ≠ ((0 : ℚ), (0 : ℚ)) := by
  refine ⟨?_, ?_, ?_, ?_, ?_, ?_⟩
  · simp only [cornerBoxD, CornerD.drawnCenter, Prod.mk.injEq]
    constructor <;> ring
  · rfl
  · intro hx
    apply hs
    simp only [BoxHighlighting.highlight, Box.matching, cornerBoxD, CornerD.drawnCenter,
      Option.map_some', Option.some.injEq, Prod.mk.injEq] at hx
    obtain ⟨h1, -⟩ := hx
    linarith
  · simp only [BoxHighlighting.highlight, BoxHighlighting.setLineThickness,
      BoxHighlighting.new, Box.matching, cornerBoxD, BoxLike.minX, BoxLike.minY,
      Option.some.injEq, CornerD.mk.injEq]
    norm_num
  · simp only [CornerD.drawnCenter, Prod.mk.injEq]
    norm_num
  · simp only [ne_eq, Prod.mk.injEq, not_and]
    intro h
    norm_num at h

/-- Witness for C4's theorem: its hypothesis holds at the square root
routine that maps everything to 1 (agreeing with the float square root at
thickness 1) and a freshly constructed marker. -/
theorem cornerBoxD_corner_not_center_witness :
    ((fun _ => (1 : ℚ)) (BoxHighlighting.new 0).lineThickness ≠ 0) ∧
    ((BoxHighlighting.highlight (fun _ => 1) ⟨0, 0, 10, 10⟩
        (BoxHighlighting.setLineThickness (fun _ => 1) 1 (BoxHighlighting.new 0))).dTL =
      some { mx := -2, my := -2, seg := 2 }) :=
  ⟨by norm_num,
   (cornerBoxD_corner_not_center (fun _ => 1) 1 (0, 0) (BoxHighlighting.new 0)
      ⟨0, 0, 10, 10⟩ (by norm_num)).2.2.2.1⟩

/-- C6: for every box with non-negative width and height, the trace/highlight
operation writes the perimeter path
`M x y h width v height h -width z` — on both stroke sub-elements of a
`BoxTrace`, and on the perimeter (`boxTrace`) stroke sub-element of a
`BoxHighlighting` (whose four other stroke sub-elements carry the corner-box
paths instead). The path's vertices are exactly the box's four corners, the
example box `{x:-22, y:84, width:501, height:221}` renders
`M -22 84 h 501 v 221 h -501 z` (and `{0,0,10,10}` renders
`M 0 0 h 10 v 10 h -10 z`), and re-applying the same box is idempotent. -/
theorem trace_sets_perimeter_path (b : BoxLike) (hw : 0 ≤ b.width) (hh : 0 ≤ b.height)
    (m : BoxTrace) (bh : BoxHighlighting) (sq : ℚ → ℚ) :
    (BoxTrace.trace b m).lightD = some (traceDOf b) ∧
    (BoxTrace.trace b m).darkD = some (traceDOf b) ∧
    (BoxHighlighting.highlight sq b bh).traceD = some (traceDOf b) ∧
    (traceDOf b).vertices = b.corners ∧
    BoxTrace.trace b (BoxTrace.trace b m) = BoxTrace.trace b m ∧
    BoxHighlighting.highlight sq b (BoxHighlighting.highlight sq b bh) =
      BoxHighlighting.highlight sq b bh ∧
    (traceDOf ⟨-22, 84, 501, 221⟩).render = some "M -22 84 h 501 v 221 h -501 z" ∧
    (traceDOf ⟨0, 0, 10, 10⟩).render = some "M 0 0 h 10 v 10 h -10 z" := by
  refine ⟨rfl, rfl, rfl, ?_, rfl, rfl, by decide, by decide⟩
  simp [TraceD.vertices, traceDOf, BoxLike.corners, BoxLike.minX, BoxLike.minY,
    BoxLike.maxX, BoxLike.maxY, add_neg_cancel_right]

/-- Witness for C6's theorem at the spec's example box and fresh markers. -/
theorem trace_sets_perimeter_path_witness :
    (0 : ℚ) ≤ (501 : ℚ) ∧ (0 : ℚ) ≤ (221 : ℚ) ∧
    (BoxTrace.trace ⟨-22, 84, 501, 221⟩ (BoxTrace.new 0)).lightD =
      some (traceDOf ⟨-22, 84, 501, 221⟩) :=
  ⟨by norm_num, by norm_num,
   (trace_sets_perimeter_path ⟨-22, 84, 501, 221⟩ (by norm_num) (by norm_num)
      (BoxTrace.new 0) (BoxHighlighting.new 0) (fun _ => 1)).1⟩

/-- C7: `setThickness(t)` / the `lineThickness` setter writes `stroke-width`
`t` on every stroke sub-element — both dashings of a `BoxTrace`, all five
stroke elements of a `BoxHighlighting` — and for the corner-handle variant
re-derives the corner geometry from the last-set box at the new thickness,
while changing no geometry when no box has been highlighted yet (the
`BoxTrace` variant never touches geometry). -/
theorem setThickness_strokes_and_geometry (t : ℚ) (ht : 0 < t) (m : BoxTrace)
    (bh : BoxHighlighting) (sq : ℚ → ℚ) :
    (BoxTrace.setThickness t m).swLight = t ∧
    (BoxTrace.setThickness t m).swDark = t ∧
    (BoxTrace.setThickness t m).lightD = m.lightD ∧
    (BoxTrace.setThickness t m).darkD = m.darkD ∧
    (BoxHighlighting.setLineThickness sq t bh).swTrace = t ∧
    (BoxHighlighting.setLineThickness sq t bh).swTL = t ∧
    (BoxHighlighting.setLineThickness sq t bh).swTR = t ∧
    (BoxHighlighting.setLineThickness sq t bh).swBR = t ∧
    (BoxHighlighting.setLineThickness sq t bh).swBL = t ∧
    (BoxHighlighting.setLineThickness sq t bh).lineThickness = t ∧
    (bh.highlightedBox = none →
      (BoxHighlighting.setLineThickness sq t bh).traceD = bh.traceD ∧
      (BoxHighlighting.setLineThickness sq t bh).dTL = bh.dTL ∧
      (BoxHighlighting.setLineThickness sq t bh).dTR = bh.dTR ∧
      (BoxHighlighting.setLineThickness sq t bh).dBR = bh.dBR ∧
      (BoxHighlighting.setLineThickness sq t bh).dBL = bh.dBL) ∧
    (∀ b, bh.highlightedBox = some b →
      (BoxHighlighting.setLineThickness sq t bh).traceD = some (traceDOf b) ∧
      (BoxHighlighting.setLineThickness sq t bh).dTL =
        some (cornerBoxD sq t (b.minX, b.minY)) ∧
      (BoxHighlighting.setLineThickness sq t bh).dTR =
        some (cornerBoxD sq t (b.maxX, b.minY)) ∧
      (BoxHighlighting.setLineThickness sq t bh).dBR =
        some (cornerBoxD sq t (b.maxX, b.maxY)) ∧
      (BoxHighlighting.setLineThickness sq t bh).dBL =
        some (cornerBoxD sq t (b.minX, b.maxY))) := by
  cases hbox : bh.highlightedBox with
  | none =>
    refine ⟨rfl, rfl, rfl, rfl, ?_⟩
    simp [BoxHighlighting.setLineThickness, hbox]
  | some b =>
    refine ⟨rfl, rfl, rfl, rfl, ?_⟩
    simp [BoxHighlighting.setLineThickness, BoxHighlighting.highlight, Box.matching, hbox]

/-- Witness for C7's theorem at thickness 2 on fresh markers. -/
theorem setThickness_strokes_and_geometry_witness :
    (0 : ℚ) < 2 ∧
    (BoxTrace.setThickness 2 (BoxTrace.new 0)).swLight = 2 :=
  ⟨by norm_num,
   (setThickness_strokes_and_geometry 2 (by norm_num) (BoxTrace.new 0)
      (BoxHighlighting.new 0) (fun _ => 1)).1⟩

/-- C8: constructing either controller registers the live set's change
listener and a mutation observer over the whole host document subtree
(attributes, child list, character data, subtree all true), but performs no
refresh: the pool starts empty (so no marker geometry exists), it stays
empty after zero notifications, and neither `appendTo` nor `remove` ever
touches the pool — only a notification-triggered `refresh` does. -/
theorem construct_subscribes_without_refresh (r : Nat) (sq : ℚ → ℚ) :
    (LiveSVGElementHighlightings.construct r).pool = [] ∧
    (LiveSVGElementHighlightings.construct r).subs.changeListener = true ∧
    (LiveSVGElementHighlightings.construct r).subs.observed =
      some { attributes := true, childList := true, characterData := true, subtree := true } ∧
    runEvents sq (LiveSVGElementHighlightings.construct r) [] =
      LiveSVGElementHighlightings.construct r ∧
    (∀ (c : LiveSVGElementHighlightings) (n : Nat),
      (c.appendTo n).pool = c.pool ∧ c.remove.pool = c.pool) ∧
    (LiveBoxTraceHighlightings.construct r).pool = [] ∧
    (LiveBoxTraceHighlightings.construct r).subs =
      { changeListener := true,
        observed := some { attributes := true, childList := true,
                           characterData := true, subtree := true } } ∧
    (∀ (c : LiveBoxTraceHighlightings) (n : Nat),
      (c.appendTo n).pool = c.pool ∧ c.remove.pool = c.pool) :=
  ⟨rfl, rfl, rfl, rfl, fun _ _ => ⟨rfl, rfl⟩, rfl, rfl, fun _ _ => ⟨rfl, rfl⟩⟩

/-- C9: `remove()` only detaches the controller's root group — pool,
counter, root identity and both watcher subscriptions are untouched, and it
is a no-op when there is no parent. An appendTo/remove cycle leaves the
container with zero added child nodes, appendTo/remove/appendTo restores
exactly one, and the pool (markers and their geometry) survives the whole
cycle unchanged. -/
theorem remove_detaches_only_root (c : LiveSVGElementHighlightings) (n : Nat) :
    c.remove.parent = none ∧
    c.remove.pool = c.pool ∧
    c.remove.subs = c.subs ∧
    c.remove.nextId = c.nextId ∧
    c.remove.rootId = c.rootId ∧
    (c.parent = none → c.remove = c) ∧
    addedChildren ((c.appendTo n).remove).parent n = 0 ∧
    addedChildren (((c.appendTo n).remove).appendTo n).parent n = 1 ∧
    (((c.appendTo n).remove).appendTo n).pool = c.pool ∧
    (((c.appendTo n).remove).appendTo n).subs = c.subs ∧
    (((c.appendTo n).remove).appendTo n).nextId = c.nextId := by
  refine ⟨rfl, rfl, rfl, rfl, rfl, ?_, ?_, ?_, rfl, rfl, rfl⟩
  · intro h
    cases c with
    | mk pool nextId rootId parent subs =>
      simp only at h
      simp [LiveSVGElementHighlightings.remove, h]
  · simp [addedChildren, LiveSVGElementHighlightings.appendTo,
      LiveSVGElementHighlightings.remove]
  · simp [addedChildren, LiveSVGElementHighlightings.appendTo,
      LiveSVGElementHighlightings.remove]

/-- Witness for C9's theorem: the `no-op when detached` hypothesis holds for
a freshly constructed controller. -/
theorem remove_detaches_only_root_witness :
    (LiveSVGElementHighlightings.construct 0).remove.parent = none ∧
    ((LiveSVGElementHighlightings.construct 0).parent = none →
      (LiveSVGElementHighlightings.construct 0).remove =
        LiveSVGElementHighlightings.construct 0) :=
  ⟨(remove_detaches_only_root (LiveSVGElementHighlightings.construct 0) 3).1,
   (remove_detaches_only_root (LiveSVGElementHighlightings.construct 0) 3).2.2.2.2.2.1⟩

/-- C10: root visual nodes have at most one parent at any time (the parent
pointer is a single optional reference), and `appendTo` on a second
container without an intervening `remove` moves the node: afterwards the
node's parent is the second container and the first container has zero
added child nodes — for a `BoxHighlighting` marker's root node and for a
controller's root group alike. -/
theorem appendTo_reparents (m : BoxHighlighting) (c : LiveSVGElementHighlightings)
    (c1 c2 : Nat) (h : c1 ≠ c2) :
    (BoxHighlighting.appendTo c2 (BoxHighlighting.appendTo c1 m)).parent = some c2 ∧
    addedChildren (BoxHighlighting.appendTo c2 (BoxHighlighting.appendTo c1 m)).parent c1 = 0 ∧
    ((c.appendTo c1).appendTo c2).parent = some c2 ∧
    addedChildren ((c.appendTo c1).appendTo c2).parent c1 = 0 ∧
    (∀ n n', m.parent = some n → m.parent = some n' → n = n') ∧
    (∀ n n', c.parent = some n → c.parent = some n' → n = n') := by
  refine ⟨rfl, ?_, rfl, ?_, ?_, ?_⟩
  · simp [addedChildren, BoxHighlighting.appendTo, Ne.symm h]
  · simp [addedChildren, LiveSVGElementHighlightings.appendTo, Ne.symm h]
  · intro n n' hn hn'
    rw [hn] at hn'
    exact Option.some_injective _ hn'
  · intro n n' hn hn'
    rw [hn] at hn'
    exact Option.some_injective _ hn'

/-- Witness for C10's theorem at two distinct containers. -/
theorem appendTo_reparents_witness :
    (1 : Nat) ≠ 2 ∧
    (BoxHighlighting.appendTo 2 (BoxHighlighting.appendTo 1 (BoxHighlighting.new 0))).parent =
      some 2 :=
  ⟨by decide,
   (appendTo_reparents (BoxHighlighting.new 0) (LiveSVGElementHighlightings.construct 0)
      1 2 (by decide)).1⟩

/-- C2: for any refresh (of either controller), the pool length afterwards is
`max (previous pool length) (target count)` — hence non-decreasing across
every sequence of refreshes — and the pool's object identities afterwards are
exactly the previous identities followed by the freshly allocated ones: no
marker is destroyed, re-created or reordered, the first N markers are
preserved by identity, and growing from N to N+K targets leaves exactly N+K
markers, all attached to the controller's root group. -/
theorem refresh_pool_monotone_identity (sq : ℚ → ℚ) (scaling : ℚ)
    (targets : List (Option BoxLike)) (s : LiveSVGElementHighlightings)
    (hatt : ∀ m ∈ s.pool, m.parent = some s.rootId) :
    (s.refresh sq scaling targets).pool.length = max s.pool.length targets.length ∧
    s.pool.length ≤ (s.refresh sq scaling targets).pool.length ∧
    (s.refresh sq scaling targets).pool.map BoxHighlighting.mid =
      s.pool.map BoxHighlighting.mid ++
        (List.range (targets.length - s.pool.length)).map (fun j => s.nextId + j) ∧
    ((s.refresh sq scaling targets).pool.map BoxHighlighting.mid).take s.pool.length =
      s.pool.map BoxHighlighting.mid ∧
    (∀ m ∈ (s.refresh sq scaling targets).pool, m.parent = some s.rootId) ∧
    (∀ evs, s.pool.length ≤ (runEvents sq s evs).pool.length) ∧
    (∀ (tc : LiveBoxTraceHighlightings), (∀ m ∈ tc.pool, m.parent = some tc.rootId) →
      (tc.refresh targets).pool.length = max tc.pool.length targets.length ∧
      (tc.refresh targets).pool.map BoxTrace.mid =
        tc.pool.map BoxTrace.mid ++
          (List.range (targets.length - tc.pool.length)).map (fun j => tc.nextId + j) ∧
      (∀ m ∈ (tc.refresh targets).pool, m.parent = some tc.rootId)) := by
  have hmid : (s.refresh sq scaling targets).pool.map BoxHighlighting.mid =
      s.pool.map BoxHighlighting.mid ++
        (List.range (targets.length - s.pool.length)).map (fun j => s.nextId + j) := by
    rw [refresh_pool_def, map_mid_processPool, List.map_append, map_mid_newMarkers]
  have hpar : (s.refresh sq scaling targets).pool.map BoxHighlighting.parent =
      s.pool.map BoxHighlighting.parent ++
        List.replicate (targets.length - s.pool.length) (some s.rootId) := by
    rw [refresh_pool_def, map_parent_processPool, List.map_append, map_parent_newMarkers]
  refine ⟨length_refresh_pool sq scaling targets s, ?_, hmid, ?_, ?_, ?_, ?_⟩
  · rw [length_refresh_pool]; exact Nat.le_max_left _ _
  · rw [hmid]
    exact List.take_left' (List.length_map _ _)
  · intro m hm
    have hmem : m.parent ∈ (s.refresh sq scaling targets).pool.map BoxHighlighting.parent :=
      List.mem_map_of_mem _ hm
    rw [hpar] at hmem
    rcases List.mem_append.mp hmem with h | h
    · obtain ⟨m0, hm0, he⟩ := List.mem_map.mp h
      rw [← he]; exact hatt m0 hm0
    · exact List.eq_of_mem_replicate h
  · exact length_runEvents_mono sq s
  · intro tc hattT
    have hmidT : (tc.refresh targets).pool.map BoxTrace.mid =
        tc.pool.map BoxTrace.mid ++
          (List.range (targets.length - tc.pool.length)).map (fun j => tc.nextId + j) := by
      rw [refreshT_pool_def, map_mid_processPoolT, List.map_append, map_mid_newMarkersT]
    have hparT : (tc.refresh targets).pool.map BoxTrace.parent =
        tc.pool.map BoxTrace.parent ++
          List.replicate (targets.length - tc.pool.length) (some tc.rootId) := by
      rw [refreshT_pool_def, map_parent_processPoolT, List.map_append, map_parent_newMarkersT]
    refine ⟨length_refreshT_pool targets tc, hmidT, ?_⟩
    intro m hm
    have hmem : m.parent ∈ (tc.refresh targets).pool.map BoxTrace.parent :=
      List.mem_map_of_mem _ hm
    rw [hparT] at hmem
    rcases List.mem_append.mp hmem with h | h
    · obtain ⟨m0, hm0, he⟩ := List.mem_map.mp h
      rw [← he]; exact hattT m0 hm0
    · exact List.eq_of_mem_replicate h

/-- Witness for C2's theorem: a fresh controller (empty pool, attachment
hypothesis vacuous) refreshed over two targets ends with a pool of length
two. -/
theorem refresh_pool_monotone_identity_witness :
    (∀ m ∈ (LiveSVGElementHighlightings.construct 0).pool,
      m.parent = some (LiveSVGElementHighlightings.construct 0).rootId) ∧
    ((LiveSVGElementHighlightings.construct 0).refresh (fun _ => 1) 1
        [some ⟨0, 0, 10, 10⟩, some ⟨-22, 84, 501, 221⟩]).pool.length =
      max (LiveSVGElementHighlightings.construct 0).pool.length 2 :=
  ⟨by decide,
   (refresh_pool_monotone_identity (fun _ => 1) 1
      [some ⟨0, 0, 10, 10⟩, some ⟨-22, 84, 501, 221⟩]
      (LiveSVGElementHighlightings.construct 0) (by decide)).1⟩

/-- C3: when the target set has shrunk to M targets against a pool of N > M
markers and every box query succeeds, a refresh ends with the first M
markers at opacity 1 and the remaining N−M markers at opacity 0, all N still
attached to the controller's root group — for both controller variants. -/
theorem refresh_shrink_hides_extras (sq : ℚ → ℚ) (scaling : ℚ)
    (targets : List (Option BoxLike)) (s : LiveSVGElementHighlightings)
    (hM : targets.length < s.pool.length) (hall : ∀ t ∈ targets, t.isSome)
    (hatt : ∀ m ∈ s.pool, m.parent = some s.rootId) :
    (s.refresh sq scaling targets).pool.map BoxHighlighting.opacity =
      List.replicate targets.length (some 1) ++
        List.replicate (s.pool.length - targets.length) (some 0) ∧
    (s.refresh sq scaling targets).pool.length = s.pool.length ∧
    (∀ m ∈ (s.refresh sq scaling targets).pool, m.parent = some s.rootId) ∧
    (∀ (tc : LiveBoxTraceHighlightings), targets.length < tc.pool.length →
      (∀ m ∈ tc.pool, m.parent = some tc.rootId) →
      (tc.refresh targets).pool.map BoxTrace.opacity =
        List.replicate targets.length (some 1) ++
          List.replicate (tc.pool.length - targets.length) (some 0) ∧
      (∀ m ∈ (tc.refresh targets).pool, m.parent = some tc.rootId)) := by
  have hz : targets.length - s.pool.length = 0 := Nat.sub_eq_zero_of_le (Nat.le_of_lt hM)
  have hgrown : s.pool ++ newMarkers s.rootId s.nextId (targets.length - s.pool.length) =
      s.pool := by
    rw [hz]; simp [newMarkers]
  refine ⟨?_, ?_, ?_, ?_⟩
  · rw [refresh_pool_def, hgrown, map_opacity_processPool sq _ targets s.pool
      (Nat.le_of_lt hM) hall]
  · rw [length_refresh_pool]; omega
  · intro m hm
    have hpar : (s.refresh sq scaling targets).pool.map BoxHighlighting.parent =
        s.pool.map BoxHighlighting.parent := by
      rw [refresh_pool_def, hgrown, map_parent_processPool]
    have hmem : m.parent ∈ (s.refresh sq scaling targets).pool.map BoxHighlighting.parent :=
      List.mem_map_of_mem _ hm
    rw [hpar] at hmem
    obtain ⟨m0, hm0, he⟩ := List.mem_map.mp hmem
    rw [← he]; exact hatt m0 hm0
  · intro tc hMT hattT
    have hzT : targets.length - tc.pool.length = 0 := Nat.sub_eq_zero_of_le (Nat.le_of_lt hMT)
    have hgrownT : tc.pool ++ newMarkersT tc.rootId tc.nextId (targets.length - tc.pool.length) =
        tc.pool := by
      rw [hzT]; simp [newMarkersT]
    refine ⟨?_, ?_⟩
    · rw [refreshT_pool_def, hgrownT, map_opacity_processPoolT targets tc.pool
        (Nat.le_of_lt hMT) hall]
    · intro m hm
      have hparT : (tc.refresh targets).pool.map BoxTrace.parent =
          tc.pool.map BoxTrace.parent := by
        rw [refreshT_pool_def, hgrownT, map_parent_processPoolT]
      have hmem : m.parent ∈ (tc.refresh targets).pool.map BoxTrace.parent :=
        List.mem_map_of_mem _ hm
      rw [hparT] at hmem
      obtain ⟨m0, hm0, he⟩ := List.mem_map.mp hmem
      rw [← he]; exact hattT m0 hm0

/-- Witness for C3's theorem: a controller whose pool was grown to two
markers by a first refresh, then refreshed with a single target, ends with
opacities `[some 1, some 0]`. -/
theorem refresh_shrink_hides_extras_witness :
    (1 < ((LiveSVGElementHighlightings.construct 0).refresh (fun _ => 1) 1
        [some ⟨0, 0, 10, 10⟩, some ⟨-22, 84, 501, 221⟩]).pool.length) ∧
    (((LiveSVGElementHighlightings.construct 0).refresh (fun _ => 1) 1
          [some ⟨0, 0, 10, 10⟩, some ⟨-22, 84, 501, 221⟩]).refresh (fun _ => 1) 1
        [some ⟨0, 0, 10, 10⟩]).pool.map BoxHighlighting.opacity =
      List.replicate 1 (some 1) ++ List.replicate
        (((LiveSVGElementHighlightings.construct 0).refresh (fun _ => 1) 1
            [some ⟨0, 0, 10, 10⟩, some ⟨-22, 84, 501, 221⟩]).pool.length - 1) (some 0) :=
  ⟨by decide,
   (refresh_shrink_hides_extras (fun _ => 1) 1 [some ⟨0, 0, 10, 10⟩]
      ((LiveSVGElementHighlightings.construct 0).refresh (fun _ => 1) 1
        [some ⟨0, 0, 10, 10⟩, some ⟨-22, 84, 501, 221⟩])
      (by decide) (by decide) (by decide)).1⟩

/-- C5: during a refresh of the corner-handle-variant controller, the line
thickness written to every successfully processed marker is
`0.75 / horizontalScaling` for the scaling passed to that refresh (the
reading taken during the refresh itself), on the private thickness and on
all five `stroke-width` attributes; and after a second refresh with a
different current scaling the thickness reflects the second reading — the
value is never cached from an earlier refresh. -/
theorem refresh_thickness_tracks_scaling (sq : ℚ → ℚ) (scaling scaling2 : ℚ)
    (targets targets2 : List (Option BoxLike)) (s : LiveSVGElementHighlightings)
    (i : Nat) (b : BoxLike) (hb : targets[i]? = some (some b)) :
    (∃ m : BoxHighlighting, (s.refresh sq scaling targets).pool[i]? = some m ∧
      m.lineThickness = 0.75 / scaling ∧
      m.swTrace = 0.75 / scaling ∧ m.swTL = 0.75 / scaling ∧ m.swTR = 0.75 / scaling ∧
      m.swBR = 0.75 / scaling ∧ m.swBL = 0.75 / scaling) ∧
    (∀ (i2 : Nat) (b2 : BoxLike), targets2[i2]? = some (some b2) →
      ∃ m : BoxHighlighting,
        ((s.refresh sq scaling targets).refresh sq scaling2 targets2).pool[i2]? = some m ∧
        m.lineThickness = 0.75 / scaling2 ∧ m.swTrace = 0.75 / scaling2) := by
  constructor
  · obtain ⟨g, -, hm⟩ := refresh_success_getElem sq scaling targets s i b hb
    exact ⟨_, hm, by rw [refreshMarker_some], by rw [refreshMarker_some],
      by rw [refreshMarker_some], by rw [refreshMarker_some],
      by rw [refreshMarker_some], by rw [refreshMarker_some]⟩
  · intro i2 b2 hb2
    obtain ⟨g, -, hm⟩ :=
      refresh_success_getElem sq scaling2 targets2 (s.refresh sq scaling targets) i2 b2 hb2
    exact ⟨_, hm, by rw [refreshMarker_some], by rw [refreshMarker_some]⟩

/-- Witness for C5's theorem: one target at index 0. -/
theorem refresh_thickness_tracks_scaling_witness :
    ([some (⟨0, 0, 10, 10⟩ : BoxLike)][0]? = some (some ⟨0, 0, 10, 10⟩)) ∧
    (∃ m : BoxHighlighting, ((LiveSVGElementHighlightings.construct 0).refresh (fun _ => 1) 2
        [some ⟨0, 0, 10, 10⟩]).pool[0]? = some m ∧
      m.lineThickness = 0.75 / 2 ∧
      m.swTrace = 0.75 / 2 ∧ m.swTL = 0.75 / 2 ∧ m.swTR = 0.75 / 2 ∧
      m.swBR = 0.75 / 2 ∧ m.swBL = 0.75 / 2) :=
  ⟨by decide,
   (refresh_thickness_tracks_scaling (fun _ => 1) 2 3 [some ⟨0, 0, 10, 10⟩]
      [some ⟨0, 0, 10, 10⟩] (LiveSVGElementHighlightings.construct 0) 0
      ⟨0, 0, 10, 10⟩ (by decide)).1⟩

/-- C1: in a refresh whose target list is `pre ++ [failure] ++ post` with
every query in `pre` and `post` succeeding (exactly one failure, at index
`pre.length`), every marker whose target succeeded is updated with its box
(perimeter and corner paths) and set fully visible; the failed target's
marker is exactly its pre-loop state — in particular, when its slot predates
this refresh, its geometry and opacity are byte-for-byte unchanged; the
`catch` branch logs exactly one error; and `refresh`, a total function, runs
every index rather than aborting. The `part_002` controller behaves the same
way. -/
theorem refresh_one_failure_isolated (sq : ℚ → ℚ) (scaling : ℚ)
    (pre post : List (Option BoxLike)) (s : LiveSVGElementHighlightings)
    (hpre : ∀ x ∈ pre, x.isSome) (hpost : ∀ x ∈ post, x.isSome) :
    ((pre ++ none :: post)[pre.length]? = some none) ∧
    (∀ i, i ≠ pre.length → i < (pre ++ none :: post).length →
      ∃ b, (pre ++ none :: post)[i]? = some (some b)) ∧
    (∀ (i : Nat) (b : BoxLike), (pre ++ none :: post)[i]? = some (some b) →
      ∃ m g : BoxHighlighting,
        (s.pool ++ newMarkers s.rootId s.nextId
          ((pre ++ none :: post).length - s.pool.length))[i]? = some g ∧
        (s.refresh sq scaling (pre ++ none :: post)).pool[i]? = some m ∧
        m.traceD = some (traceDOf b) ∧
        m.dTL = some (cornerBoxD sq (0.75 / scaling) (b.minX, b.minY)) ∧
        m.dTR = some (cornerBoxD sq (0.75 / scaling) (b.maxX, b.minY)) ∧
        m.dBR = some (cornerBoxD sq (0.75 / scaling) (b.maxX, b.maxY)) ∧
        m.dBL = some (cornerBoxD sq (0.75 / scaling) (b.minX, b.maxY)) ∧
        m.opacity = some 1 ∧ m.mid = g.mid) ∧
    ((s.refresh sq scaling (pre ++ none :: post)).pool[pre.length]? =
      (s.pool ++ newMarkers s.rootId s.nextId
        ((pre ++ none :: post).length - s.pool.length))[pre.length]?) ∧
    (pre.length < s.pool.length →
      (s.refresh sq scaling (pre ++ none :: post)).pool[pre.length]? =
        s.pool[pre.length]?) ∧
    refreshErrors (pre ++ none :: post) = 1 ∧
    (∀ (tc : LiveBoxTraceHighlightings),
      (∀ (i : Nat) (b : BoxLike), (pre ++ none :: post)[i]? = some (some b) →
        ∃ m g : BoxTrace,
          (tc.pool ++ newMarkersT tc.rootId tc.nextId
            ((pre ++ none :: post).length - tc.pool.length))[i]? = some g ∧
          (tc.refresh (pre ++ none :: post)).pool[i]? = some m ∧
          m.lightD = some (traceDOf b) ∧ m.darkD = some (traceDOf b) ∧
          m.opacity = some 1 ∧ m.mid = g.mid) ∧
      (tc.refresh (pre ++ none :: post)).pool[pre.length]? =
        (tc.pool ++ newMarkersT tc.rootId tc.nextId
          ((pre ++ none :: post).length - tc.pool.length))[pre.length]?) := by
  have hjget : (pre ++ none :: post)[pre.length]? = some none := by
    rw [List.getElem?_append_right (Nat.le_refl _), Nat.sub_self]
    simp
  refine ⟨hjget, ?_, ?_, ?_, ?_, ?_, ?_⟩
  · intro i hne hilen
    rcases Nat.lt_or_ge i pre.length with hlt | hge
    · obtain ⟨x, hx⟩ : ∃ x, pre[i]? = some x :=
        ⟨_, List.getElem?_eq_some_iff.mpr ⟨hlt, rfl⟩⟩
      obtain ⟨b, rfl⟩ := Option.isSome_iff_exists.mp (hpre x (List.getElem?_mem hx))
      exact ⟨b, by rw [List.getElem?_append_left hlt, hx]⟩
    · have hgt : pre.length < i := Nat.lt_of_le_of_ne hge (fun h => hne h.symm)
      have hpos : 1 ≤ i - pre.length := by omega
      have hlt2 : i - pre.length - 1 < post.length := by
        rw [List.length_append, List.length_cons] at hilen
        omega
      obtain ⟨x, hx⟩ : ∃ x, post[i - pre.length - 1]? = some x :=
        ⟨_, List.getElem?_eq_some_iff.mpr ⟨hlt2, rfl⟩⟩
      obtain ⟨b, rfl⟩ := Option.isSome_iff_exists.mp (hpost x (List.getElem?_mem hx))
      refine ⟨b, ?_⟩
      rw [List.getElem?_append_right hge]
      cases hd : i - pre.length with
      | zero => omega
      | succ k =>
        have : k = i - pre.length - 1 := by omega
        simpa [this] using hx
  · intro i b hb
    obtain ⟨g, hg, hm⟩ := refresh_success_getElem sq scaling (pre ++ none :: post) s i b hb
    refine ⟨_, g, hg, hm, ?_, ?_, ?_, ?_, ?_, ?_, ?_⟩ <;> rw [refreshMarker_some]
  · exact refresh_failure_getElem sq scaling (pre ++ none :: post) s pre.length hjget
  · intro hlt
    rw [refresh_failure_getElem sq scaling (pre ++ none :: post) s pre.length hjget,
      List.getElem?_append_left hlt]
  · rw [refreshErrors_append, refreshErrors_of_allSome pre hpre]
    have : refreshErrors (none :: post) = 1 + refreshErrors post := by
      simp [refreshErrors]
    rw [this, refreshErrors_of_allSome post hpost]
  · intro tc
    constructor
    · intro i b hb
      obtain ⟨g, hg, hm⟩ := refreshT_success_getElem (pre ++ none :: post) tc i b hb
      refine ⟨_, g, hg, hm, ?_, ?_, ?_, ?_⟩ <;> rw [refreshMarkerT_some]
    · exact refreshT_failure_getElem (pre ++ none :: post) tc pre.length hjget

/-- Witness for C1's theorem: two targets, the second one failing. -/
theorem refresh_one_failure_isolated_witness :
    (∀ x ∈ [some (⟨0, 0, 10, 10⟩ : BoxLike)], x.isSome) ∧
    (∀ x ∈ ([] : List (Option BoxLike)), x.isSome) ∧
    refreshErrors ([some (⟨0, 0, 10, 10⟩ : BoxLike)] ++ none :: []) = 1 :=
  ⟨by decide, by decide,
   (refresh_one_failure_isolated (fun _ => 1) 1 [some ⟨0, 0, 10, 10⟩] []
      (LiveSVGElementHighlightings.construct 0) (by decide)
      (by decide)).2.2.2.2.2.1⟩
